import Mathlib

/-!
Verification development for the V-Scanner risk-scoring and report-aggregation
core (files cli/permissions.py and cli/report_generator.py), shallowly embedded
in Lean 4. Python dicts with unique literal keys are embedded as association
lists preserving insertion order; Python ints are Int (Nat where the source can
only produce non-negative values); f-string interpolation of integers is
embedded by an executable decimal renderer.
-/

/-- Risk level classification for permissions (class RiskLevel in
cli/permissions.py). -/
inductive RiskLevel where
  | CRITICAL
  | HIGH
  | MEDIUM
  | LOW
  | INFO
deriving DecidableEq, Repr

/-- String value of a RiskLevel enum member (RiskLevel.value in Python:
the enum values are the tier names themselves). -/
def RiskLevel.value : RiskLevel → String
  | .CRITICAL => "CRITICAL"
  | .HIGH => "HIGH"
  | .MEDIUM => "MEDIUM"
  | .LOW => "LOW"
  | .INFO => "INFO"

/-- Information about an Android permission (dataclass PermissionInfo in
cli/permissions.py). -/
structure PermissionInfo where
  name : String
  risk_level : RiskLevel
  category : String
  description : String
  risks : List String
  mitigations : List String
  secure_alternatives : List String
deriving DecidableEq, Repr

def perm_READ_SMS : PermissionInfo :=
  ⟨"READ_SMS", .CRITICAL, "SMS", "Allows reading SMS messages",
   ["Can read OTP/2FA codes", "Access to personal conversations",
    "Financial data exposure (bank SMS)", "Identity theft risk"],
   ["Revoke if not essential for app function", "Use SMS Retriever API instead",
    "Enable 2FA with authenticator apps"],
   ["Google SMS Retriever API", "Push notifications for OTP"]⟩

def perm_SEND_SMS : PermissionInfo :=
  ⟨"SEND_SMS", .CRITICAL, "SMS", "Allows sending SMS messages",
   ["Unauthorized SMS charges", "Spam distribution", "Premium SMS fraud",
    "Phishing attacks"],
   ["Deny unless messaging app", "Monitor phone bills regularly",
    "Use Intent-based SMS for occasional sends"],
   ["Intent ACTION_SENDTO", "In-app messaging services"]⟩

def perm_RECEIVE_SMS : PermissionInfo :=
  ⟨"RECEIVE_SMS", .CRITICAL, "SMS", "Allows receiving SMS messages",
   ["Intercept OTP codes", "Privacy violation", "SMS-based attacks"],
   ["Review which apps have this permission", "Use authenticator apps for 2FA"],
   ["SMS Retriever API", "Firebase Auth phone verification"]⟩

def perm_READ_CONTACTS : PermissionInfo :=
  ⟨"READ_CONTACTS", .HIGH, "Contacts", "Allows reading contact data",
   ["Contact list harvesting", "Social engineering attacks",
    "Spam targeting contacts", "Privacy breach"],
   ["Grant only to trusted communication apps",
    "Review app reviews before granting",
    "Use contact picker for single selections"],
   ["Contact Picker API", "Manual contact entry"]⟩

def perm_WRITE_CONTACTS : PermissionInfo :=
  ⟨"WRITE_CONTACTS", .HIGH, "Contacts", "Allows modifying contact data",
   ["Contact manipulation", "Malicious contact injection", "Data corruption"],
   ["Deny to most apps", "Backup contacts regularly"],
   ["Intent-based contact creation"]⟩

def perm_CAMERA : PermissionInfo :=
  ⟨"CAMERA", .HIGH, "Camera", "Allows access to device camera",
   ["Unauthorized photo/video capture", "Surveillance without consent",
    "Privacy invasion", "Facial recognition abuse"],
   ["Grant only when actively using camera features", "Revoke when not needed",
    "Use camera covers", "Check indicator lights"],
   ["Intent ACTION_IMAGE_CAPTURE", "External camera apps"]⟩

def perm_ACCESS_FINE_LOCATION : PermissionInfo :=
  ⟨"ACCESS_FINE_LOCATION", .HIGH, "Location", "Allows precise GPS location access",
   ["Real-time tracking", "Location history exposure", "Stalking enablement",
    "Home/work location inference"],
   ["Use 'While using app' option", "Deny background location",
    "Use coarse location when possible"],
   ["Coarse location for general apps", "On-demand location requests"]⟩

def perm_ACCESS_COARSE_LOCATION : PermissionInfo :=
  ⟨"ACCESS_COARSE_LOCATION", .MEDIUM, "Location", "Allows approximate location access",
   ["General area tracking", "Behavioral profiling"],
   ["Prefer over fine location", "Review necessity"],
   ["IP-based geolocation", "Manual location entry"]⟩

def perm_ACCESS_BACKGROUND_LOCATION : PermissionInfo :=
  ⟨"ACCESS_BACKGROUND_LOCATION", .CRITICAL, "Location",
   "Allows location access in background",
   ["Continuous tracking without awareness", "Battery drain",
    "Comprehensive movement history"],
   ["Deny to most apps", "Allow only for navigation/fitness apps",
    "Regular audit"],
   ["Geofencing APIs", "User-triggered location updates"]⟩

def perm_RECORD_AUDIO : PermissionInfo :=
  ⟨"RECORD_AUDIO", .HIGH, "Microphone", "Allows audio recording",
   ["Eavesdropping", "Conversation recording", "Voice data collection",
    "Background listening"],
   ["Grant only to call/voice apps", "Revoke when not needed",
    "Check mic indicator"],
   ["Speech-to-text APIs", "Intent-based voice input"]⟩

def perm_READ_EXTERNAL_STORAGE : PermissionInfo :=
  ⟨"READ_EXTERNAL_STORAGE", .MEDIUM, "Storage", "Allows reading external storage",
   ["Access to photos/documents", "Personal data exposure",
    "Downloaded file access"],
   ["Use scoped storage", "Grant selective media access"],
   ["Storage Access Framework", "Media Store API"]⟩

def perm_WRITE_EXTERNAL_STORAGE : PermissionInfo :=
  ⟨"WRITE_EXTERNAL_STORAGE", .MEDIUM, "Storage", "Allows writing to external storage",
   ["File manipulation", "Malware installation", "Data corruption"],
   ["Use app-specific directories", "Review file access patterns"],
   ["App-specific storage", "Scoped storage (Android 10+)"]⟩

def perm_MANAGE_EXTERNAL_STORAGE : PermissionInfo :=
  ⟨"MANAGE_EXTERNAL_STORAGE", .CRITICAL, "Storage",
   "Allows full external storage management",
   ["Complete file system access", "All app data accessible",
    "System file manipulation"],
   ["Only for file managers", "Deny to other apps"],
   ["SAF for document access", "MediaStore for media"]⟩

def perm_READ_PHONE_STATE : PermissionInfo :=
  ⟨"READ_PHONE_STATE", .MEDIUM, "Phone", "Allows reading phone state and identity",
   ["Device fingerprinting", "IMEI/phone number exposure",
    "Call state monitoring"],
   ["Deny if not call-related", "Review data collection policies"],
   ["Instance ID for app identification"]⟩

def perm_CALL_PHONE : PermissionInfo :=
  ⟨"CALL_PHONE", .HIGH, "Phone", "Allows initiating phone calls",
   ["Premium number calls", "Unauthorized charges", "Harassment potential"],
   ["Use dial intent instead", "Review call logs"],
   ["Intent ACTION_DIAL"]⟩

def perm_READ_CALL_LOG : PermissionInfo :=
  ⟨"READ_CALL_LOG", .HIGH, "Phone", "Allows reading call history",
   ["Communication pattern exposure", "Contact relationship mapping",
    "Privacy violation"],
   ["Deny to most apps", "Clear call logs periodically"],
   ["No direct alternative - limit access"]⟩

def perm_READ_CALENDAR : PermissionInfo :=
  ⟨"READ_CALENDAR", .MEDIUM, "Calendar", "Allows reading calendar events",
   ["Schedule exposure", "Meeting attendee harvesting",
    "Location pattern inference"],
   ["Grant only to productivity apps", "Review synced accounts"],
   ["CalendarContract.Events picker"]⟩

def perm_WRITE_CALENDAR : PermissionInfo :=
  ⟨"WRITE_CALENDAR", .MEDIUM, "Calendar", "Allows modifying calendar events",
   ["Event manipulation", "Spam calendar entries", "Schedule disruption"],
   ["Limit to calendar apps", "Review calendar changes"],
   ["Intent-based calendar entry"]⟩

def perm_BODY_SENSORS : PermissionInfo :=
  ⟨"BODY_SENSORS", .MEDIUM, "Sensors",
   "Allows access to body sensors (heart rate, etc.)",
   ["Health data exposure", "Activity tracking", "Medical privacy breach"],
   ["Grant only to fitness apps", "Review data sharing policies"],
   ["Health Connect API"]⟩

def perm_INTERNET : PermissionInfo :=
  ⟨"INTERNET", .LOW, "Network", "Allows internet access",
   ["Data exfiltration possible", "Network attacks", "Privacy leaks"],
   ["Monitor data usage", "Use firewall apps"],
   ["Offline modes when available"]⟩

def perm_ACCESS_WIFI_STATE : PermissionInfo :=
  ⟨"ACCESS_WIFI_STATE", .LOW, "Network", "Allows viewing Wi-Fi connection info",
   ["Network fingerprinting", "Location inference via Wi-Fi"],
   ["Standard permission, low risk"],
   []⟩

def perm_SYSTEM_ALERT_WINDOW : PermissionInfo :=
  ⟨"SYSTEM_ALERT_WINDOW", .CRITICAL, "Special", "Allows drawing over other apps",
   ["Clickjacking attacks", "Credential theft overlays", "Screen recording",
    "Phishing overlays"],
   ["Deny to untrusted apps", "Review overlay permissions in settings"],
   ["Bubbles API (Android 11+)", "Picture-in-picture"]⟩

def perm_BIND_ACCESSIBILITY_SERVICE : PermissionInfo :=
  ⟨"BIND_ACCESSIBILITY_SERVICE", .CRITICAL, "Special",
   "Allows accessibility service binding",
   ["Full screen content access", "Keylogging potential",
    "Action automation abuse", "Complete device control"],
   ["Enable only for trusted accessibility apps",
    "Regular audit of accessibility services"],
   ["Standard UI automation APIs"]⟩

def perm_BIND_DEVICE_ADMIN : PermissionInfo :=
  ⟨"BIND_DEVICE_ADMIN", .CRITICAL, "Special", "Allows device administration",
   ["Device wipe capability", "Password policy control", "Device lock",
    "Data encryption control"],
   ["Only for MDM/enterprise apps", "Review device admin apps"],
   ["Work profile for enterprise"]⟩

def perm_REQUEST_INSTALL_PACKAGES : PermissionInfo :=
  ⟨"REQUEST_INSTALL_PACKAGES", .HIGH, "Special",
   "Allows requesting package installation",
   ["Sideloading malware", "Unauthorized app installation"],
   ["Deny to most apps", "Install only from trusted sources"],
   ["Play Store installation"]⟩

/-- The comprehensive permission database (DANGEROUS_PERMISSIONS in
cli/permissions.py), a Python dict with unique string keys embedded as an
insertion-ordered association list. -/
def DANGEROUS_PERMISSIONS : List (String × PermissionInfo) :=
  [("android.permission.READ_SMS", perm_READ_SMS),
   ("android.permission.SEND_SMS", perm_SEND_SMS),
   ("android.permission.RECEIVE_SMS", perm_RECEIVE_SMS),
   ("android.permission.READ_CONTACTS", perm_READ_CONTACTS),
   ("android.permission.WRITE_CONTACTS", perm_WRITE_CONTACTS),
   ("android.permission.CAMERA", perm_CAMERA),
   ("android.permission.ACCESS_FINE_LOCATION", perm_ACCESS_FINE_LOCATION),
   ("android.permission.ACCESS_COARSE_LOCATION", perm_ACCESS_COARSE_LOCATION),
   ("android.permission.ACCESS_BACKGROUND_LOCATION", perm_ACCESS_BACKGROUND_LOCATION),
   ("android.permission.RECORD_AUDIO", perm_RECORD_AUDIO),
   ("android.permission.READ_EXTERNAL_STORAGE", perm_READ_EXTERNAL_STORAGE),
   ("android.permission.WRITE_EXTERNAL_STORAGE", perm_WRITE_EXTERNAL_STORAGE),
   ("android.permission.MANAGE_EXTERNAL_STORAGE", perm_MANAGE_EXTERNAL_STORAGE),
   ("android.permission.READ_PHONE_STATE", perm_READ_PHONE_STATE),
   ("android.permission.CALL_PHONE", perm_CALL_PHONE),
   ("android.permission.READ_CALL_LOG", perm_READ_CALL_LOG),
   ("android.permission.READ_CALENDAR", perm_READ_CALENDAR),
   ("android.permission.WRITE_CALENDAR", perm_WRITE_CALENDAR),
   ("android.permission.BODY_SENSORS", perm_BODY_SENSORS),
   ("android.permission.INTERNET", perm_INTERNET),
   ("android.permission.ACCESS_WIFI_STATE", perm_ACCESS_WIFI_STATE),
   ("android.permission.SYSTEM_ALERT_WINDOW", perm_SYSTEM_ALERT_WINDOW),
   ("android.permission.BIND_ACCESSIBILITY_SERVICE", perm_BIND_ACCESSIBILITY_SERVICE),
   ("android.permission.BIND_DEVICE_ADMIN", perm_BIND_DEVICE_ADMIN),
   ("android.permission.REQUEST_INSTALL_PACKAGES", perm_REQUEST_INSTALL_PACKAGES)]

/-- Get detailed information about a permission (get_permission_info in
cli/permissions.py, DANGEROUS_PERMISSIONS.get(permission)). -/
def get_permission_info (permission : String) : Option PermissionInfo :=
  DANGEROUS_PERMISSIONS.lookup permission

/-- The fixed per-severity weights (the risk_weights dict inside
analyze_permissions; the dict covers RiskLevel totally so the Python
dict-get default 0 is unreachable). -/
def risk_weights : RiskLevel → Nat
  | .CRITICAL => 25
  | .HIGH => 15
  | .MEDIUM => 8
  | .LOW => 3
  | .INFO => 1

/-- Accumulator for the single pass of analyze_permissions over the input
(the local variables dangerous_found, categories, risk_score). -/
structure AnalyzeAcc where
  dangerous_found : List PermissionInfo
  categories : List (String × List PermissionInfo)
  score : Nat
deriving DecidableEq, Repr

/-- categories bookkeeping in the loop body of analyze_permissions: a Python
dict from category to list, with append-at-key and insertion-ordered keys. -/
def addCategory (cats : List (String × List PermissionInfo)) (info : PermissionInfo) :
    List (String × List PermissionInfo) :=
  if cats.any (fun kv => kv.fst == info.category) then
    cats.map (fun kv => if kv.fst == info.category then (kv.fst, kv.snd ++ [info]) else kv)
  else
    cats ++ [(info.category, [info])]

/-- One iteration of the for-loop of analyze_permissions over the input list. -/
def analyzeStep (acc : AnalyzeAcc) (perm : String) : AnalyzeAcc :=
  match get_permission_info perm with
  | none => acc
  | some info =>
    ⟨acc.dangerous_found ++ [info], addCategory acc.categories info,
     acc.score + risk_weights info.risk_level⟩

/-- Result record of analyze_permissions (the returned dict). -/
structure PermissionAnalysis where
  risk_score : Nat
  risk_level : RiskLevel
  dangerous_permissions : List PermissionInfo
  categories : List (String × List PermissionInfo)
  recommendations : List String
  total_permissions : Nat
  dangerous_count : Nat
deriving DecidableEq, Repr

/-- analyze_permissions from cli/permissions.py: one pass accumulating
matched permissions, categories and the weighted score; the score is then
capped at 100, the overall risk level read off fixed thresholds, and the
recommendations list built from the first two mitigations of each matched
permission in input order. -/
def analyze_permissions (permissions : List String) : PermissionAnalysis :=
  let acc := permissions.foldl analyzeStep ⟨[], [], 0⟩
  let risk_score := min 100 acc.score
  let overall_risk :=
    if risk_score ≥ 70 then RiskLevel.CRITICAL
    else if risk_score ≥ 50 then RiskLevel.HIGH
    else if risk_score ≥ 30 then RiskLevel.MEDIUM
    else if risk_score ≥ 10 then RiskLevel.LOW
    else RiskLevel.INFO
  let recommendations := acc.dangerous_found.foldl
    (fun recs info =>
      recs ++ (info.mitigations.take 2).map (fun m => "[" ++ info.name ++ "] " ++ m))
    []
  ⟨risk_score, overall_risk, acc.dangerous_found, acc.categories, recommendations,
   permissions.length, acc.dangerous_found.length⟩

/-!
Decimal rendering of integers. Python f-strings interpolate ints via str();
this executable renderer embeds that stringification, and the parser below
embeds reading such a string back as an integer (for the cross-format
consistency property).
-/

/-- Decimal digits of a positive number, least significant first, with
explicit fuel for structural recursion (fuel at least the number itself is
enough, since the value at least halves each step). -/
def digitsRevAux : Nat → Nat → List Nat
  | 0, _ => []
  | fuel + 1, n => if n = 0 then [] else n % 10 :: digitsRevAux fuel (n / 10)

/-- Decimal digits of a number, least significant first ([] for 0). -/
def digitsRev (n : Nat) : List Nat :=
  digitsRevAux n n

/-- The character of a single decimal digit. -/
def digitChar (d : Nat) : Char :=
  Char.ofNat (48 + d)

/-- Decimal rendering of a natural number, as Python str() produces it. -/
def renderNat (n : Nat) : String :=
  if n = 0 then "0" else String.mk ((digitsRev n).reverse.map digitChar)

/-- Decimal rendering of an integer, as Python str() produces it. -/
def renderInt (i : Int) : String :=
  if i < 0 then "-" ++ renderNat i.natAbs else renderNat i.natAbs

/-- Read one decimal digit character. -/
def charDigit? (c : Char) : Option Nat :=
  if 48 ≤ c.toNat ∧ c.toNat ≤ 57 then some (c.toNat - 48) else none

/-- Read a list of decimal digit characters, failing on any non-digit. -/
def parseDigits : List Char → Option (List Nat)
  | [] => some []
  | c :: cs =>
    match charDigit? c, parseDigits cs with
    | some d, some ds => some (d :: ds)
    | _, _ => none

/-- Value of a most-significant-first digit list. -/
def parseVal (l : List Nat) : Nat :=
  l.foldl (fun a d => a * 10 + d) 0

/-- Value of a least-significant-first digit list. -/
def valRev : List Nat → Nat
  | [] => 0
  | d :: t => d + 10 * valRev t

/-- Parse a decimal natural number from a string (as Python int() on a
digit string). -/
def parseNatStr (s : String) : Option Nat :=
  match s.data with
  | [] => none
  | _ => (parseDigits s.data).map parseVal

/-- Parse a decimal integer from a string, with an optional leading minus
sign (as Python int()). -/
def parseIntStr (s : String) : Option Int :=
  match s.data with
  | [] => none
  | c :: cs =>
    if c = '-' then
      (parseNatStr (String.mk cs)).map (fun n => -(Int.ofNat n))
    else
      (parseNatStr s).map (fun n => Int.ofNat n)

theorem digitsRevAux_lt_ten {fuel n d : Nat} (h : d ∈ digitsRevAux fuel n) : d < 10 := by
  induction fuel generalizing n with
  | zero => simp [digitsRevAux] at h
  | succ fuel ih =>
    by_cases hn : n = 0
    · simp [digitsRevAux, hn] at h
    · simp only [digitsRevAux, if_neg hn, List.mem_cons] at h
      rcases h with h | h
      · subst h; exact Nat.mod_lt n (by omega)
      · exact ih h

theorem valRev_digitsRevAux {fuel n : Nat} (h : n ≤ fuel) :
    valRev (digitsRevAux fuel n) = n := by
  induction fuel generalizing n with
  | zero => simp only [Nat.le_zero] at h; simp [digitsRevAux, valRev, h]
  | succ fuel ih =>
    by_cases hn : n = 0
    · simp [digitsRevAux, hn, valRev]
    · have hdiv : n / 10 < n := Nat.div_lt_self (by omega) (by omega)
      have : valRev (digitsRevAux fuel (n / 10)) = n / 10 := ih (by omega)
      simp only [digitsRevAux, if_neg hn, valRev, this]
      omega

theorem valRev_digitsRev (n : Nat) : valRev (digitsRev n) = n :=
  valRev_digitsRevAux (Nat.le_refl n)

theorem digitsRev_ne_nil {n : Nat} (h : n ≠ 0) : digitsRev n ≠ [] := by
  cases n with
  | zero => exact absurd rfl h
  | succ m => simp [digitsRev, digitsRevAux]

theorem charDigit?_digitChar {d : Nat} (h : d < 10) :
    charDigit? (digitChar d) = some d := by
  interval_cases d <;> decide

theorem digitChar_toNat {d : Nat} (h : d < 10) :
    48 ≤ (digitChar d).toNat ∧ (digitChar d).toNat ≤ 57 := by
  interval_cases d <;> decide

theorem parseDigits_map_digitChar {l : List Nat} (h : ∀ d ∈ l, d < 10) :
    parseDigits (l.map digitChar) = some l := by
  induction l with
  | nil => rfl
  | cons d t ih =>
    have hd : d < 10 := h d (List.mem_cons_self d t)
    have ht := ih (fun x hx => h x (List.mem_cons_of_mem d hx))
    simp only [List.map_cons, parseDigits, charDigit?_digitChar hd, ht]

theorem parseVal_reverse (l : List Nat) : parseVal l.reverse = valRev l := by
  induction l with
  | nil => rfl
  | cons d t ih =>
    simp only [List.reverse_cons, parseVal, List.foldl_append, valRev]
    simp only [parseVal] at ih
    rw [ih]
    simp only [List.foldl_cons, List.foldl_nil]
    omega

theorem string_mk_data (s : String) : String.mk s.data = s :=
  rfl

theorem parseNatStr_mk (l : List Char) :
    parseNatStr (String.mk l) =
      match l with
      | [] => none
      | _ => (parseDigits l).map parseVal :=
  rfl

theorem parseIntStr_cons (c : Char) (cs : List Char) :
    parseIntStr (String.mk (c :: cs)) =
      if c = '-' then (parseNatStr (String.mk cs)).map (fun n => -(Int.ofNat n))
      else (parseNatStr (String.mk (c :: cs))).map (fun n => Int.ofNat n) :=
  rfl

theorem renderNat_data_digits (n : Nat) :
    ∀ c ∈ (renderNat n).data, 48 ≤ c.toNat ∧ c.toNat ≤ 57 := by
  intro c hc
  by_cases hn : n = 0
  · simp only [renderNat, if_pos hn] at hc
    have : c = '0' := by simpa using hc
    subst this; decide
  · simp only [renderNat, if_neg hn] at hc
    have hmem : c ∈ (digitsRev n).reverse.map digitChar := hc
    rcases List.mem_map.mp hmem with ⟨d, hd, rfl⟩
    exact digitChar_toNat (digitsRevAux_lt_ten (List.mem_reverse.mp hd))

theorem renderNat_data_ne_nil (n : Nat) : (renderNat n).data ≠ [] := by
  by_cases hn : n = 0
  · simp [renderNat, hn]
  · simp only [renderNat, if_neg hn]
    intro h
    have : (digitsRev n).reverse.map digitChar = [] := h
    simp only [List.map_eq_nil_iff, List.reverse_eq_nil_iff] at this
    exact digitsRev_ne_nil hn this

theorem parseNat_renderNat (n : Nat) : parseNatStr (renderNat n) = some n := by
  by_cases hn : n = 0
  · subst hn; decide
  · have h1 : renderNat n = String.mk ((digitsRev n).reverse.map digitChar) := by
      unfold renderNat; rw [if_neg hn]
    rcases h2 : (digitsRev n).reverse with _ | ⟨d, ds⟩
    · exact absurd (List.reverse_eq_nil_iff.mp h2) (digitsRev_ne_nil hn)
    · have hmem : ∀ x ∈ d :: ds, x < 10 := by
        intro x hx
        exact digitsRevAux_lt_ten (List.mem_reverse.mp (h2 ▸ hx))
      have h3 : renderNat n = String.mk ((d :: ds).map digitChar) := by rw [h1, h2]
      rw [h3]
      have h4 := parseDigits_map_digitChar hmem
      rw [parseNatStr_mk]
      simp only [List.map_cons]
      simp only [List.map_cons] at h4
      rw [h4]
      simp only [Option.map_some', Option.some.injEq, Int.ofNat_eq_coe]
      have h5 : parseVal (d :: ds) = valRev (digitsRev n) := by
        rw [← parseVal_reverse, h2]
      rw [h5, valRev_digitsRev]

theorem parseInt_renderInt (i : Int) : parseIntStr (renderInt i) = some i := by
  by_cases hi : i < 0
  · have hne : i.natAbs ≠ 0 := by omega
    have h1 : renderInt i = String.mk ('-' :: (renderNat i.natAbs).data) := by
      unfold renderInt; rw [if_pos hi]
      rfl
    rw [h1, parseIntStr_cons, if_pos rfl, string_mk_data, parseNat_renderNat]
    simp only [Option.map_some', Option.some.injEq, Int.ofNat_eq_coe]
    omega
  · have h1 : renderInt i = renderNat i.natAbs := by
      unfold renderInt; rw [if_neg hi]
    rcases h2 : (renderNat i.natAbs).data with _ | ⟨c, cs⟩
    · exact absurd h2 (renderNat_data_ne_nil _)
    · have hc : 48 ≤ c.toNat ∧ c.toNat ≤ 57 :=
        renderNat_data_digits i.natAbs c (h2 ▸ List.mem_cons_self c cs)
      have hcne : ¬ (c = '-') := by
        intro h; subst h; revert hc; decide
      have h3 : renderNat i.natAbs = String.mk (c :: cs) := by
        rw [← string_mk_data (renderNat i.natAbs), h2]
      rw [h1, h3, parseIntStr_cons, if_neg hcne, ← h3, parseNat_renderNat]
      simp only [Option.map_some', Option.some.injEq, Int.ofNat_eq_coe]
      omega

/-- One record of the SDK version table (the per-level dicts inside
SDK_SECURITY_INFO["versions"] in cli/permissions.py). -/
structure SdkVersionInfo where
  name : String
  status : String
  risk : RiskLevel
deriving DecidableEq, Repr

/-- SDK version security thresholds and table (SDK_SECURITY_INFO in
cli/permissions.py); the versions dict becomes an insertion-ordered
association list with unique integer keys. -/
structure SdkSecurityInfo where
  min_recommended : Int
  min_secure : Int
  deprecated : Int
  versions : List (Int × SdkVersionInfo)
deriving Repr

def SDK_SECURITY_INFO : SdkSecurityInfo :=
  ⟨28, 26, 23,
   [(34, ⟨"Android 14", "Current", .INFO⟩),
    (33, ⟨"Android 13", "Supported", .INFO⟩),
    (32, ⟨"Android 12L", "Supported", .INFO⟩),
    (31, ⟨"Android 12", "Supported", .LOW⟩),
    (30, ⟨"Android 11", "Limited Support", .LOW⟩),
    (29, ⟨"Android 10", "Security Updates Only", .MEDIUM⟩),
    (28, ⟨"Android 9 Pie", "EOL", .MEDIUM⟩),
    (27, ⟨"Android 8.1 Oreo", "EOL", .HIGH⟩),
    (26, ⟨"Android 8.0 Oreo", "EOL", .HIGH⟩),
    (25, ⟨"Android 7.1 Nougat", "EOL", .HIGH⟩),
    (24, ⟨"Android 7.0 Nougat", "EOL", .HIGH⟩),
    (23, ⟨"Android 6.0 Marshmallow", "EOL", .CRITICAL⟩)]⟩

/-- Result record of get_sdk_risk (the returned dict). -/
structure SdkAnalysis where
  target_sdk : Int
  target_info : SdkVersionInfo
  min_sdk : Int
  min_info : SdkVersionInfo
  recommendations : List String
deriving Repr

/-- The first SDK finding text (f-string in get_sdk_risk). -/
def targetSdkMsg (target_sdk : Int) : String :=
  "Target SDK " ++ renderInt target_sdk ++ " is below recommended minimum (" ++
    renderInt SDK_SECURITY_INFO.min_recommended ++ ")"

/-- The second SDK finding text (f-string in get_sdk_risk). -/
def minSdkInsecureMsg (min_sdk : Int) : String :=
  "Min SDK " ++ renderInt min_sdk ++ " allows installation on insecure Android versions"

/-- The third SDK finding text (f-string in get_sdk_risk). -/
def minSdkDeprecatedMsg (min_sdk : Int) : String :=
  "Min SDK " ++ renderInt min_sdk ++ " is deprecated and has known vulnerabilities"

/-- get_sdk_risk from cli/permissions.py: look both API levels up in the
versions table with a synthesized fallback record on a miss, then emit up to
three recommendation strings by three independent threshold checks, appended
in this fixed order. -/
def get_sdk_risk (target_sdk min_sdk : Int) : SdkAnalysis :=
  let sdk_info := SDK_SECURITY_INFO.versions
  let target_info := (sdk_info.lookup target_sdk).getD
    ⟨"API " ++ renderInt target_sdk, "Unknown", .MEDIUM⟩
  let min_info := (sdk_info.lookup min_sdk).getD
    ⟨"API " ++ renderInt min_sdk, "Unknown",
     if min_sdk < 26 then .HIGH else .MEDIUM⟩
  let recommendations : List String :=
    (if target_sdk < SDK_SECURITY_INFO.min_recommended then [targetSdkMsg target_sdk] else []) ++
    (if min_sdk < SDK_SECURITY_INFO.min_secure then [minSdkInsecureMsg min_sdk] else []) ++
    (if min_sdk < SDK_SECURITY_INFO.deprecated then [minSdkDeprecatedMsg min_sdk] else [])
  ⟨target_sdk, target_info, min_sdk, min_info, recommendations⟩

/-- One flattened dangerous-permission record inside an AppSecurityReport
(the dict create_app_report builds from each PermissionInfo: keys name,
risk_level, category, description). -/
structure DangerousPermEntry where
  name : String
  risk_level : String
  category : String
  description : String
deriving DecidableEq, Repr

/-- Security report for a single app (dataclass AppSecurityReport in
cli/report_generator.py). -/
structure AppSecurityReport where
  package_name : String
  app_name : String
  version_name : String
  version_code : Int
  target_sdk : Int
  min_sdk : Int
  permissions : List String
  dangerous_permissions : List DangerousPermEntry
  risk_score : Int
  risk_level : String
  sdk_issues : List String
  insecure_urls : List String
  recommendations : List String
  scan_time : String
deriving DecidableEq, Repr

/-- create_app_report from cli/report_generator.py: pure assembly of an
AppSecurityReport from the analysis results. In the source all entries of
permission_analysis["dangerous_permissions"] are PermissionInfo instances, so
the isinstance branch that flattens each into a dict is always taken; the
datetime.now() timestamp is passed in explicitly here. -/
def create_app_report (package_name app_name version_name : String)
    (version_code target_sdk min_sdk : Int) (permissions : List String)
    (permission_analysis : PermissionAnalysis) (sdk_analysis : SdkAnalysis)
    (insecure_urls : List String) (scan_time : String) : AppSecurityReport :=
  let dangerous_perms := permission_analysis.dangerous_permissions.map
    (fun perm => DangerousPermEntry.mk perm.name perm.risk_level.value
      perm.category perm.description)
  ⟨package_name, app_name, version_name, version_code, target_sdk, min_sdk,
   permissions, dangerous_perms, (permission_analysis.risk_score : Int),
   permission_analysis.risk_level.value, sdk_analysis.recommendations,
   insecure_urls, permission_analysis.recommendations, scan_time⟩

/-- The summary dict built by create_full_report. -/
structure ScanSummary where
  most_common_permissions : List (String × Nat)
  highest_risk_apps : List String
  total_dangerous_permissions : Nat
  apps_with_insecure_urls : Nat
deriving DecidableEq, Repr

/-- Complete security scan report (dataclass FullScanReport in
cli/report_generator.py); device_info is a free-form string mapping. -/
structure FullScanReport where
  device_info : List (String × String)
  scan_time : String
  total_apps : Nat
  high_risk_apps : Nat
  medium_risk_apps : Nat
  low_risk_apps : Nat
  apps : List AppSecurityReport
  summary : ScanSummary
deriving DecidableEq, Repr

/-- The counting dict of _get_common_permissions: Python dict.get(name,0)+1
assignment, keeping first-seen key order. -/
def tallyPerm (m : List (String × Nat)) (name : String) : List (String × Nat) :=
  if m.any (fun kv => kv.fst == name) then
    m.map (fun kv => if kv.fst == name then (kv.fst, kv.snd + 1) else kv)
  else
    m ++ [(name, 1)]

/-- _get_common_permissions from cli/report_generator.py: tally every
dangerous-permission name across all apps (entries here are always dicts, so
the isinstance branch reading key name is always taken), sort by count
descending (Python sorted: stable mergesort), keep the top 10. -/
def get_common_permissions (app_reports : List AppSecurityReport) : List (String × Nat) :=
  let perm_counts := app_reports.foldl
    (fun m app => app.dangerous_permissions.foldl (fun m p => tallyPerm m p.name) m) []
  let sorted_perms := perm_counts.mergeSort (fun a b => decide (b.snd ≤ a.snd))
  sorted_perms.take 10

/-- The comparison function of the stable sort in create_full_report:
Python sorted with key risk_score and reverse=True puts a before b when
b's score is at most a's, and keeps input order on ties. -/
def scoreDescBLe (a b : AppSecurityReport) : Bool :=
  decide (b.risk_score ≤ a.risk_score)

/-- create_full_report from cli/report_generator.py: severity-tier bucket
counts, a stable sort of the apps by risk score descending (Python sorted
with key and reverse=True), and the summary statistics; the datetime.now()
timestamp is passed in explicitly. -/
def create_full_report (device_info : List (String × String))
    (app_reports : List AppSecurityReport) (scan_time : String) : FullScanReport :=
  let high_risk := app_reports.countP
    (fun app => app.risk_level == "CRITICAL" || app.risk_level == "HIGH")
  let medium_risk := app_reports.countP (fun app => app.risk_level == "MEDIUM")
  let low_risk := app_reports.countP
    (fun app => app.risk_level == "LOW" || app.risk_level == "INFO")
  let sorted_apps := app_reports.mergeSort scoreDescBLe
  let summary : ScanSummary :=
    ⟨get_common_permissions app_reports,
     (sorted_apps.take 5).map (fun app => app.package_name),
     (app_reports.map (fun app => app.dangerous_permissions.length)).sum,
     app_reports.countP (fun app => !app.insecure_urls.isEmpty)⟩
  ⟨device_info, scan_time, app_reports.length, high_risk, medium_risk, low_risk,
   sorted_apps, summary⟩

/-- A JSON value tree, the target of the generate_json serializer
(json.dump output structure in cli/report_generator.py). -/
inductive JValue where
  | jstr (s : String)
  | jint (i : Int)
  | jarr (xs : List JValue)
  | jobj (fields : List (String × JValue))
deriving Repr

/-- JSON object for one flattened dangerous-permission dict. -/
def jsonPermEntry (p : DangerousPermEntry) : JValue :=
  .jobj [("name", .jstr p.name), ("risk_level", .jstr p.risk_level),
         ("category", .jstr p.category), ("description", .jstr p.description)]

/-- JSON object for one app, as dataclasses.asdict produces it inside
generate_json: every field of AppSecurityReport in declaration order. -/
def jsonApp (app : AppSecurityReport) : JValue :=
  .jobj [("package_name", .jstr app.package_name),
         ("app_name", .jstr app.app_name),
         ("version_name", .jstr app.version_name),
         ("version_code", .jint app.version_code),
         ("target_sdk", .jint app.target_sdk),
         ("min_sdk", .jint app.min_sdk),
         ("permissions", .jarr (app.permissions.map JValue.jstr)),
         ("dangerous_permissions", .jarr (app.dangerous_permissions.map jsonPermEntry)),
         ("risk_score", .jint app.risk_score),
         ("risk_level", .jstr app.risk_level),
         ("sdk_issues", .jarr (app.sdk_issues.map JValue.jstr)),
         ("insecure_urls", .jarr (app.insecure_urls.map JValue.jstr)),
         ("recommendations", .jarr (app.recommendations.map JValue.jstr)),
         ("scan_time", .jstr app.scan_time)]

/-- JSON object for the summary dict. -/
def jsonSummary (s : ScanSummary) : JValue :=
  .jobj [("most_common_permissions",
          .jarr (s.most_common_permissions.map
            (fun pc => .jobj [("permission", .jstr pc.fst), ("count", .jint pc.snd)]))),
         ("highest_risk_apps", .jarr (s.highest_risk_apps.map JValue.jstr)),
         ("total_dangerous_permissions", .jint s.total_dangerous_permissions),
         ("apps_with_insecure_urls", .jint s.apps_with_insecure_urls)]

/-- ReportGenerator.generate_json from cli/report_generator.py: the
report_dict handed to json.dump, a pure structural dump of the report
(file naming and writing are I/O glue outside the core). -/
def generate_json (report : FullScanReport) : JValue :=
  .jobj [("device_info", .jobj (report.device_info.map (fun kv => (kv.fst, JValue.jstr kv.snd)))),
         ("scan_time", .jstr report.scan_time),
         ("total_apps", .jint report.total_apps),
         ("high_risk_apps", .jint report.high_risk_apps),
         ("medium_risk_apps", .jint report.medium_risk_apps),
         ("low_risk_apps", .jint report.low_risk_apps),
         ("summary", jsonSummary report.summary),
         ("apps", .jarr (report.apps.map jsonApp))]

/-- Read the risk_score number of a rendered JSON app object. -/
def jsonRiskScore (j : JValue) : Option Int :=
  match j with
  | .jobj fields =>
    match fields.lookup ("risk_score") with
    | some (.jint i) => some i
    | _ => none
  | _ => none

/-- The string interpolated into the score slot of TEXT_TEMPLATE's
per-app risk line (the app.risk_score substitution in generate_text). -/
def textScoreSlot (app : AppSecurityReport) : String :=
  renderInt app.risk_score

/-- The per-app risk line of the text report, as TEXT_TEMPLATE renders it in
ReportGenerator.generate_text. -/
def textRiskLine (app : AppSecurityReport) : String :=
  "│ Risk Level: " ++ app.risk_level ++ " (Score: " ++ textScoreSlot app ++ "/100)"

/-- The per-app risk lines of the text report, in report order. -/
def textRiskLines (report : FullScanReport) : List String :=
  report.apps.map textRiskLine

/-!
Theorems. First the permission-scoring claims (cli/permissions.py), then the
aggregation and serialization claims (cli/report_generator.py).
-/

/-- Score contribution of one input identifier: the fixed weight of its
severity when it is in the catalog, else nothing. -/
def permWeight (p : String) : Nat :=
  match get_permission_info p with
  | some info => risk_weights info.risk_level
  | none => 0

theorem foldl_analyzeStep_score (perms : List String) (acc : AnalyzeAcc) :
    (perms.foldl analyzeStep acc).score = acc.score + (perms.map permWeight).sum := by
  induction perms generalizing acc with
  | nil => simp
  | cons p t ih =>
    rw [List.foldl_cons, ih]
    unfold analyzeStep permWeight
    rcases h : get_permission_info p with _ | info <;> simp [h] <;> omega

theorem foldl_analyzeStep_found (perms : List String) (acc : AnalyzeAcc) :
    (perms.foldl analyzeStep acc).dangerous_found =
      acc.dangerous_found ++ perms.filterMap get_permission_info := by
  induction perms generalizing acc with
  | nil => simp
  | cons p t ih =>
    rw [List.foldl_cons, ih]
    unfold analyzeStep
    rcases h : get_permission_info p with _ | info <;> simp [h]

/-- C1: analyze_permissions computes risk_score as the weight sum over the
input identifiers found in the catalog (input order, repetitions counted),
with the fixed weights CRITICAL=25, HIGH=15, MEDIUM=8, LOW=3, INFO=1,
clamped above at 100; hence the score always lies in [0, 100] (it is a
natural number, so the lower bound is by construction). -/
theorem analyze_risk_score_clamped_weighted_sum (perms : List String) :
    (analyze_permissions perms).risk_score = min 100 ((perms.map permWeight).sum) ∧
    (analyze_permissions perms).risk_score ≤ 100 ∧
    0 ≤ (analyze_permissions perms).risk_score ∧
    risk_weights .CRITICAL = 25 ∧ risk_weights .HIGH = 15 ∧
    risk_weights .MEDIUM = 8 ∧ risk_weights .LOW = 3 ∧ risk_weights .INFO = 1 := by
  have h1 : (analyze_permissions perms).risk_score =
      min 100 ((perms.map permWeight).sum) := by
    show min 100 (perms.foldl analyzeStep ⟨[], [], 0⟩).score = _
    rw [foldl_analyzeStep_score]
    simp
  refine ⟨h1, ?_, Nat.zero_le _, rfl, rfl, rfl, rfl, rfl⟩
  rw [h1]
  exact Nat.min_le_left _ _

/-- Overall severity from the fixed score thresholds, stated from the spec
wording of thresholds (≥70 CRITICAL, ≥50 HIGH, ≥30 MEDIUM, ≥10 LOW, else
INFO), to be compared with the code path inside analyze_permissions. -/
def severity_from_thresholds (score : Nat) : RiskLevel :=
  if 70 ≤ score then .CRITICAL
  else if 50 ≤ score then .HIGH
  else if 30 ≤ score then .MEDIUM
  else if 10 ≤ score then .LOW
  else .INFO

/-- C2: the overall risk level of analyze_permissions is exactly the fixed
threshold classification of the computed risk score, and the thresholds have
the stated boundary behavior (70 CRITICAL, 69 HIGH, 50 HIGH, 49 MEDIUM,
30 MEDIUM, 29 LOW, 10 LOW, 9 INFO). -/
theorem analyze_risk_level_thresholds (perms : List String) :
    (analyze_permissions perms).risk_level =
      severity_from_thresholds (analyze_permissions perms).risk_score ∧
    severity_from_thresholds 70 = .CRITICAL ∧
    severity_from_thresholds 69 = .HIGH ∧
    severity_from_thresholds 50 = .HIGH ∧
    severity_from_thresholds 49 = .MEDIUM ∧
    severity_from_thresholds 30 = .MEDIUM ∧
    severity_from_thresholds 29 = .LOW ∧
    severity_from_thresholds 10 = .LOW ∧
    severity_from_thresholds 9 = .INFO :=
  ⟨rfl, rfl, rfl, rfl, rfl, rfl, rfl, rfl, rfl⟩

/-- C3: score monotonicity — appending a permission identifier present in
the catalog never decreases the risk score. -/
theorem analyze_risk_score_monotone (L : List String) (P : String)
    (h : (get_permission_info P).isSome = true) :
    (analyze_permissions L).risk_score ≤ (analyze_permissions (L ++ [P])).risk_score := by
  have h1 := (analyze_risk_score_clamped_weighted_sum L).1
  have h2 := (analyze_risk_score_clamped_weighted_sum (L ++ [P])).1
  rw [h1, h2, List.map_append, List.sum_append]
  simp only [List.map_cons, List.map_nil, List.sum_cons, List.sum_nil]
  omega

/-- Witness for C3 at a concrete catalog permission. -/
theorem analyze_risk_score_monotone_witness :
    (get_permission_info ("android.permission.CAMERA")).isSome = true ∧
    (analyze_permissions []).risk_score ≤
      (analyze_permissions ["android.permission.CAMERA"]).risk_score :=
  ⟨by decide, analyze_risk_score_monotone [] ("android.permission.CAMERA") (by decide)⟩

/-- C5: identifiers absent from the catalog are silently skipped; an input
of only unknown identifiers yields score 0, dangerous count 0 and an empty
dangerous list (analyze_permissions is total, so no failure is possible). -/
theorem analyze_unknown_noop (perms : List String)
    (h : ∀ p ∈ perms, get_permission_info p = none) :
    (analyze_permissions perms).risk_score = 0 ∧
    (analyze_permissions perms).dangerous_count = 0 ∧
    (analyze_permissions perms).dangerous_permissions = [] := by
  have hfound : (perms.foldl analyzeStep ⟨[], [], 0⟩).dangerous_found = [] := by
    rw [foldl_analyzeStep_found]
    simp only [List.nil_append]
    rw [List.filterMap_eq_nil_iff.mpr]
    intro p hp
    simp [h p hp]
  have hscore : (perms.foldl analyzeStep ⟨[], [], 0⟩).score = 0 := by
    rw [foldl_analyzeStep_score]
    simp only [Nat.zero_add]
    rw [List.sum_eq_zero]
    intro x hx
    rcases List.mem_map.mp hx with ⟨p, hp, rfl⟩
    unfold permWeight
    rw [h p hp]
  refine ⟨?_, ?_, ?_⟩
  · show min 100 (perms.foldl analyzeStep ⟨[], [], 0⟩).score = 0
    rw [hscore]
    simp
  · show (perms.foldl analyzeStep ⟨[], [], 0⟩).dangerous_found.length = 0
    rw [hfound]; rfl
  · show (perms.foldl analyzeStep ⟨[], [], 0⟩).dangerous_found = []
    exact hfound

/-- Witness for C5 at the unknown identifier the spec names. -/
theorem analyze_unknown_noop_witness :
    (∀ p ∈ ["com.unknown.NOT_A_REAL_PERMISSION"], get_permission_info p = none) ∧
    (analyze_permissions ["com.unknown.NOT_A_REAL_PERMISSION"]).risk_score = 0 ∧
    (analyze_permissions ["com.unknown.NOT_A_REAL_PERMISSION"]).dangerous_count = 0 ∧
    (analyze_permissions ["com.unknown.NOT_A_REAL_PERMISSION"]).dangerous_permissions = [] :=
  ⟨by decide, analyze_unknown_noop ["com.unknown.NOT_A_REAL_PERMISSION"] (by decide)⟩

/-- C8: duplicates are not deduplicated before scoring — a catalog
permission listed twice contributes its weight twice (clamped at 100) and
appears once per occurrence in the dangerous list. -/
theorem analyze_duplicates_counted (P : String) (info : PermissionInfo)
    (h : get_permission_info P = some info) :
    (analyze_permissions [P, P]).risk_score =
      min 100 (2 * risk_weights info.risk_level) ∧
    (analyze_permissions [P, P]).dangerous_permissions = [info, info] := by
  constructor
  · show min 100 (([P, P].foldl analyzeStep ⟨[], [], 0⟩)).score = _
    rw [foldl_analyzeStep_score]
    unfold permWeight
    simp only [List.map_cons, List.map_nil, List.sum_cons, List.sum_nil, h]
    congr 1
    omega
  · show ([P, P].foldl analyzeStep ⟨[], [], 0⟩).dangerous_found = _
    rw [foldl_analyzeStep_found]
    simp [h]

/-- Witness for C8 at a concrete catalog permission. -/
theorem analyze_duplicates_counted_witness :
    (analyze_permissions
        ["android.permission.READ_SMS", "android.permission.READ_SMS"]).risk_score =
      min 100 (2 * risk_weights perm_READ_SMS.risk_level) ∧
    (analyze_permissions
        ["android.permission.READ_SMS", "android.permission.READ_SMS"]).dangerous_permissions =
      [perm_READ_SMS, perm_READ_SMS] :=
  analyze_duplicates_counted ("android.permission.READ_SMS") perm_READ_SMS (by decide)

/-- C6: unknown API levels never fail — get_sdk_risk synthesizes fallback
records with display name API n, severity MEDIUM for the target lookup, and
for the min lookup HIGH when min_sdk < 26 and MEDIUM otherwise
(get_sdk_risk is a total function, so no exception is possible). -/
theorem sdk_unknown_fallback (target_sdk min_sdk : Int)
    (ht : SDK_SECURITY_INFO.versions.lookup target_sdk = none)
    (hm : SDK_SECURITY_INFO.versions.lookup min_sdk = none) :
    (get_sdk_risk target_sdk min_sdk).target_info =
      ⟨"API " ++ renderInt target_sdk, "Unknown", .MEDIUM⟩ ∧
    (get_sdk_risk target_sdk min_sdk).min_info =
      ⟨"API " ++ renderInt min_sdk, "Unknown",
       if min_sdk < 26 then .HIGH else .MEDIUM⟩ := by
  constructor
  · show (SDK_SECURITY_INFO.versions.lookup target_sdk).getD _ = _
    rw [ht]
    rfl
  · show (SDK_SECURITY_INFO.versions.lookup min_sdk).getD _ = _
    rw [hm]
    rfl

/-- Witness for C6 at the unknown API level 999 the spec names. -/
theorem sdk_unknown_fallback_witness :
    SDK_SECURITY_INFO.versions.lookup 999 = none ∧
    (get_sdk_risk 999 999).target_info = ⟨"API " ++ renderInt 999, "Unknown", .MEDIUM⟩ ∧
    (get_sdk_risk 999 999).min_info =
      ⟨"API " ++ renderInt 999, "Unknown", if (999 : Int) < 26 then .HIGH else .MEDIUM⟩ :=
  ⟨by decide, (sdk_unknown_fallback 999 999 (by decide) (by decide)).1,
   (sdk_unknown_fallback 999 999 (by decide) (by decide)).2⟩

/-- C7: the SDK findings are three independent checks emitted in a fixed
order — target_sdk < 28 first, then min_sdk < 26, then min_sdk < 23, each
present exactly when its condition holds; at (20, 20) all three fire in
that order. -/
theorem sdk_findings_ordered_independent (target_sdk min_sdk : Int) :
    (get_sdk_risk target_sdk min_sdk).recommendations =
      (if target_sdk < 28 then [targetSdkMsg target_sdk] else []) ++
      (if min_sdk < 26 then [minSdkInsecureMsg min_sdk] else []) ++
      (if min_sdk < 23 then [minSdkDeprecatedMsg min_sdk] else []) ∧
    (get_sdk_risk 20 20).recommendations =
      ["Target SDK 20 is below recommended minimum (28)",
       "Min SDK 20 allows installation on insecure Android versions",
       "Min SDK 20 is deprecated and has known vulnerabilities"] :=
  ⟨rfl, by decide⟩

theorem scoreDescBLe_trans (a b c : AppSecurityReport)
    (hab : scoreDescBLe a b) (hbc : scoreDescBLe b c) : scoreDescBLe a c := by
  simp only [scoreDescBLe, decide_eq_true_eq] at *
  omega

theorem scoreDescBLe_total (a b : AppSecurityReport) :
    scoreDescBLe a b || scoreDescBLe b a := by
  simp only [scoreDescBLe, Bool.or_eq_true, decide_eq_true_eq]
  omega

theorem mergeSort_filter_fixed_score (l : List AppSecurityReport) (s : Int) :
    (l.mergeSort scoreDescBLe).filter (fun a => a.risk_score == s) =
      l.filter (fun a => a.risk_score == s) := by
  have hmemp : ∀ a ∈ l.filter (fun a => a.risk_score == s), (a.risk_score == s) = true :=
    fun a ha => (List.mem_filter.mp ha).2
  have hpw : (l.filter (fun a => a.risk_score == s)).Pairwise
      (fun a b => scoreDescBLe a b = true) := by
    apply List.pairwise_of_forall_mem_list
    intro a ha b hb
    have ha2 : a.risk_score = s := by simpa using (List.mem_filter.mp ha).2
    have hb2 : b.risk_score = s := by simpa using (List.mem_filter.mp hb).2
    simp [scoreDescBLe, ha2, hb2]
  have hsub : List.Sublist (l.filter (fun a => a.risk_score == s)) (l.mergeSort scoreDescBLe) :=
    List.sublist_mergeSort scoreDescBLe_trans scoreDescBLe_total hpw (List.filter_sublist l)
  have hsub2 : List.Sublist (l.filter (fun a => a.risk_score == s))
      ((l.mergeSort scoreDescBLe).filter (fun a => a.risk_score == s)) := by
    have h2 := hsub.filter (fun a => a.risk_score == s)
    rwa [List.filter_eq_self.mpr hmemp] at h2
  have hlen : (l.filter (fun a => a.risk_score == s)).length =
      ((l.mergeSort scoreDescBLe).filter (fun a => a.risk_score == s)).length := by
    rw [← List.countP_eq_length_filter, ← List.countP_eq_length_filter]
    exact ((List.mergeSort_perm l scoreDescBLe).countP_eq _).symm
  exact (hsub2.eq_of_length hlen).symm

/-- C4: create_full_report is permutation-invariant in its three severity
bucket counts and in summary.total_dangerous_permissions; its apps sequence
is sorted by risk_score descending with ties in input order (the filter
equality pins the stable tie order to the given permutation's input order);
and the buckets count CRITICAL or HIGH as high, MEDIUM as medium, and LOW or
INFO as low. -/
theorem full_report_perm_invariant_sorted_stable
    (d : List (String × String)) (t : String) (l1 l2 : List AppSecurityReport)
    (hp : l1.Perm l2) :
    (create_full_report d l1 t).high_risk_apps = (create_full_report d l2 t).high_risk_apps ∧
    (create_full_report d l1 t).medium_risk_apps = (create_full_report d l2 t).medium_risk_apps ∧
    (create_full_report d l1 t).low_risk_apps = (create_full_report d l2 t).low_risk_apps ∧
    (create_full_report d l1 t).summary.total_dangerous_permissions =
      (create_full_report d l2 t).summary.total_dangerous_permissions ∧
    (create_full_report d l1 t).apps.Pairwise (fun a b => b.risk_score ≤ a.risk_score) ∧
    (∀ s : Int, (create_full_report d l1 t).apps.filter (fun a => a.risk_score == s) =
      l1.filter (fun a => a.risk_score == s)) ∧
    (create_full_report d l1 t).high_risk_apps =
      l1.countP (fun a => a.risk_level == "CRITICAL" || a.risk_level == "HIGH") ∧
    (create_full_report d l1 t).medium_risk_apps =
      l1.countP (fun a => a.risk_level == "MEDIUM") ∧
    (create_full_report d l1 t).low_risk_apps =
      l1.countP (fun a => a.risk_level == "LOW" || a.risk_level == "INFO") := by
  refine ⟨hp.countP_eq _, hp.countP_eq _, hp.countP_eq _, ?_, ?_, ?_, rfl, rfl, rfl⟩
  · show (l1.map (fun app => app.dangerous_permissions.length)).sum =
      (l2.map (fun app => app.dangerous_permissions.length)).sum
    exact (hp.map _).sum_eq
  · show (l1.mergeSort scoreDescBLe).Pairwise (fun a b => b.risk_score ≤ a.risk_score)
    have h := List.sorted_mergeSort scoreDescBLe_trans scoreDescBLe_total l1
    exact h.imp (fun hab => of_decide_eq_true hab)
  · intro s
    exact mergeSort_filter_fixed_score l1 s

/-- Sample app report with overall tier HIGH (score 50), used to instantiate
the aggregation and serialization theorems; mirrors the spec's end-to-end
scenario app with SYSTEM_ALERT_WINDOW and BIND_ACCESSIBILITY_SERVICE. -/
def sample_app_high : AppSecurityReport :=
  ⟨"com.example.three", "App3", "1.0", 3, 34, 26,
   ["android.permission.SYSTEM_ALERT_WINDOW",
    "android.permission.BIND_ACCESSIBILITY_SERVICE"],
   [⟨"SYSTEM_ALERT_WINDOW", "CRITICAL", "Special", "Allows drawing over other apps"⟩,
    ⟨"BIND_ACCESSIBILITY_SERVICE", "CRITICAL", "Special",
     "Allows accessibility service binding"⟩],
   50, "HIGH", [], [], [], "2024-01-01T00:00:00"⟩

/-- Sample app report with overall tier LOW (score 15, CAMERA only). -/
def sample_app_low : AppSecurityReport :=
  ⟨"com.example.two", "App2", "1.0", 2, 34, 26,
   ["android.permission.CAMERA"],
   [⟨"CAMERA", "HIGH", "Camera", "Allows access to device camera"⟩],
   15, "LOW", [], [], [], "2024-01-01T00:00:00"⟩

/-- Sample app report with overall tier INFO (no permissions, score 0). -/
def sample_app_info : AppSecurityReport :=
  ⟨"com.example.one", "App1", "1.0", 1, 34, 26, [], [], 0, "INFO",
   [], [], [], "2024-01-01T00:00:00"⟩

/-- Witness for C4 at a concrete two-element permutation. -/
theorem full_report_perm_invariant_witness :
    (create_full_report [] [sample_app_low, sample_app_high] ("t")).high_risk_apps =
      (create_full_report [] [sample_app_high, sample_app_low] ("t")).high_risk_apps ∧
    (create_full_report [] [sample_app_low, sample_app_high] ("t")).summary.total_dangerous_permissions =
      (create_full_report [] [sample_app_high, sample_app_low] ("t")).summary.total_dangerous_permissions :=
  ⟨(full_report_perm_invariant_sorted_stable [] ("t")
      [sample_app_low, sample_app_high] [sample_app_high, sample_app_low] (by decide)).1,
   (full_report_perm_invariant_sorted_stable [] ("t")
      [sample_app_low, sample_app_high] [sample_app_high, sample_app_low] (by decide)).2.2.2.1⟩

/-- C9: the serializers are pure reads of the same report — the JSON
document carries each app's risk_score verbatim as a number, the text
document renders the same field into its score slot, and parsing the text
slot back yields exactly the JSON number, which is the report's stored
score (no serializer recomputes or mutates anything); the generate_json
apps array is the report's apps sequence serialized in order. -/
theorem json_text_score_consistent (r : FullScanReport) (app : AppSecurityReport)
    (h : app ∈ r.apps) :
    (generate_json r = JValue.jobj
      [("device_info", .jobj (r.device_info.map (fun kv => (kv.fst, JValue.jstr kv.snd)))),
       ("scan_time", .jstr r.scan_time),
       ("total_apps", .jint r.total_apps),
       ("high_risk_apps", .jint r.high_risk_apps),
       ("medium_risk_apps", .jint r.medium_risk_apps),
       ("low_risk_apps", .jint r.low_risk_apps),
       ("summary", jsonSummary r.summary),
       ("apps", .jarr (r.apps.map jsonApp))]) ∧
    ∃ v : Int, jsonRiskScore (jsonApp app) = some v ∧
      parseIntStr (textScoreSlot app) = some v ∧ v = app.risk_score :=
  ⟨rfl, app.risk_score, rfl, parseInt_renderInt app.risk_score, rfl⟩

/-- Witness for C9 at a concrete one-app report. -/
theorem json_text_score_consistent_witness :
    ∃ v : Int, jsonRiskScore (jsonApp sample_app_high) = some v ∧
      parseIntStr (textScoreSlot sample_app_high) = some v ∧
      v = sample_app_high.risk_score :=
  (json_text_score_consistent (create_full_report [] [sample_app_high] ("t"))
    sample_app_high (by simp [create_full_report])).2

/-- C10: when every report's risk_level is one of the five tier strings (as
holds for reports built by create_app_report from an analyze_permissions
result, whose level is RiskLevel.value of the overall tier), the three
bucket counts of create_full_report sum to total_apps, which is the input
length. -/
theorem full_report_counts_partition (d : List (String × String)) (t : String)
    (reports : List AppSecurityReport)
    (h : ∀ a ∈ reports, a.risk_level ∈ ["CRITICAL", "HIGH", "MEDIUM", "LOW", "INFO"]) :
    (create_full_report d reports t).high_risk_apps +
      (create_full_report d reports t).medium_risk_apps +
      (create_full_report d reports t).low_risk_apps =
      (create_full_report d reports t).total_apps ∧
    (create_full_report d reports t).total_apps = reports.length := by
  refine ⟨?_, rfl⟩
  show reports.countP _ + reports.countP _ + reports.countP _ = reports.length
  induction reports with
  | nil => rfl
  | cons a tl ih =>
    have ha := h a (List.mem_cons_self a tl)
    have htl := ih (fun x hx => h x (List.mem_cons_of_mem a hx))
    simp only [List.mem_cons, List.not_mem_nil, or_false] at ha
    simp only [List.countP_cons, List.length_cons]
    rcases ha with ha | ha | ha | ha | ha <;> simp_all <;> omega

/-- Witness for C10 at a concrete two-app list. -/
theorem full_report_counts_partition_witness :
    (create_full_report [] [sample_app_high, sample_app_info] ("t")).high_risk_apps +
      (create_full_report [] [sample_app_high, sample_app_info] ("t")).medium_risk_apps +
      (create_full_report [] [sample_app_high, sample_app_info] ("t")).low_risk_apps =
      (create_full_report [] [sample_app_high, sample_app_info] ("t")).total_apps ∧
    (create_full_report [] [sample_app_high, sample_app_info] ("t")).total_apps =
      [sample_app_high, sample_app_info].length :=
  full_report_counts_partition [] ("t") [sample_app_high, sample_app_info] (by decide)
